import Mathlib

/-!
A shallow embedding of `src/main.rs` of the gemini-commit-message tool.

The program is a linear pipeline: load a `.env` file, read the staged git
diff, build a prompt from a fixed guideline constant plus the diff, POST the
prompt to the Gemini endpoint, extract the first candidate's first text part
from the JSON response, print it and copy it to the clipboard.

External collaborators (the git repository, the environment, the HTTP
exchange, the clipboard) are modelled as explicit input data: each fallible
foreign call is a field of `RepoEnv` / `HttpExchange` / `World` holding the
result that call would produce, with error payloads modelled as the `String`
rendering Rust would interpolate into messages.  The Rust functions
`get_git_diff`, `create_prompt`, `generate_commit_message`, `copy_to_clip`
and `main` are translated line by line into total Lean functions over that
data; `main` and `generate_commit_message` additionally return the list of
pipeline steps they invoked, so that short-circuiting claims can be stated.
-/

namespace GeminiCommit

/-- Rust `char::is_whitespace`: true exactly on the characters with the
Unicode `White_Space` property. -/
def rustIsWhitespace (c : Char) : Bool :=
  decide ((0x09 ≤ c.toNat ∧ c.toNat ≤ 0x0D) ∨ c.toNat = 0x20 ∨ c.toNat = 0x85 ∨
    c.toNat = 0xA0 ∨ c.toNat = 0x1680 ∨ (0x2000 ≤ c.toNat ∧ c.toNat ≤ 0x200A) ∨
    c.toNat = 0x2028 ∨ c.toNat = 0x2029 ∨ c.toNat = 0x202F ∨ c.toNat = 0x205F ∨
    c.toNat = 0x3000)

/-- Rust `str::trim`: drop whitespace characters from the front and the back
of the string; interior characters are untouched. -/
def rustTrim (s : String) : String :=
  String.mk (((s.data.dropWhile rustIsWhitespace).reverse.dropWhile
    rustIsWhitespace).reverse)

/-- A continuation byte of a UTF-8 sequence: `0x80 ≤ b < 0xC0`. -/
def isUtf8Cont (b : Nat) : Bool := decide (0x80 ≤ b ∧ b < 0xC0)

/-- Rust `String::from_utf8`, as a decoder on the byte list: `some` of the
decoded characters exactly when the bytes are valid UTF-8 (shortest-form
sequences only, surrogates and values above `0x10FFFF` rejected), `none`
otherwise. -/
def utf8Decode? : List Nat → Option (List Char)
  | [] => some []
  | b :: rest =>
    if b < 0x80 then
      (utf8Decode? rest).map (fun cs => Char.ofNat b :: cs)
    else if b < 0xC2 then none
    else if b < 0xE0 then
      match rest with
      | b1 :: r =>
        if isUtf8Cont b1 then
          (utf8Decode? r).map (fun cs =>
            Char.ofNat ((b - 0xC0) * 0x40 + (b1 - 0x80)) :: cs)
        else none
      | [] => none
    else if b < 0xF0 then
      match rest with
      | b1 :: b2 :: r =>
        if (if b = 0xE0 then decide (0xA0 ≤ b1 ∧ b1 < 0xC0)
            else if b = 0xED then decide (0x80 ≤ b1 ∧ b1 < 0xA0)
            else isUtf8Cont b1) && isUtf8Cont b2 then
          (utf8Decode? r).map (fun cs =>
            Char.ofNat ((b - 0xE0) * 0x1000 + (b1 - 0x80) * 0x40 + (b2 - 0x80)) :: cs)
        else none
      | _ => none
    else if b < 0xF5 then
      match rest with
      | b1 :: b2 :: b3 :: r =>
        if (if b = 0xF0 then decide (0x90 ≤ b1 ∧ b1 < 0xC0)
            else if b = 0xF4 then decide (0x80 ≤ b1 ∧ b1 < 0x90)
            else isUtf8Cont b1) && isUtf8Cont b2 && isUtf8Cont b3 then
          (utf8Decode? r).map (fun cs =>
            Char.ofNat ((b - 0xF0) * 0x40000 + (b1 - 0x80) * 0x1000 +
              (b2 - 0x80) * 0x40 + (b3 - 0x80)) :: cs)
        else none
      | _ => none
    else none

/-- Outcome of `get_git_diff`: the Rust function either panics (a process
abort), returns `Err`, or returns `Ok`. -/
inductive GitOutcome (α : Type) where
  | panic (msg : String)
  | err (msg : String)
  | ok (val : α)
deriving DecidableEq, Repr

/-- The git-facing environment of one run: the result each `git2` call inside
`get_git_diff` would produce, in the order the source makes the calls.
Error payloads are the `Display` rendering of the `git2::Error`.
`printRes` holds the bytes that `diff.print` emits through the callback
(the concatenation of every `line.content()` slice, since the callback
appends each slice and always returns `true`). -/
structure RepoEnv where
  /-- `Repository::open(env::current_dir())` -/
  openRes : Except String Unit
  /-- `repo.head()?.peel_to_tree()?` -/
  headRes : Except String Unit
  /-- `repo.index()?` -/
  indexRes : Except String Unit
  /-- `repo.diff_tree_to_index(...)?` -/
  diffRes : Except String Unit
  /-- `diff.print(DiffFormat::Patch, ...)?` with the collected bytes -/
  printRes : Except String (List Nat)
deriving Repr

/-- `get_git_diff` of src/main.rs, lines 9-26: open the repository (panicking
with the `faild to open` message on failure), resolve HEAD's tree, diff it
against the index, print the diff to bytes, and UTF-8 decode the bytes.
Every fallible step after the open propagates with `?` as an `Err`.  The
`FromUtf8Error` display is modelled by its fixed leading text. -/
def get_git_diff (env : RepoEnv) : GitOutcome String :=
  match env.openRes with
  | .error e => .panic ("faild to open: " ++ e)
  | .ok _ =>
    match env.headRes with
    | .error e => .err e
    | .ok _ =>
      match env.indexRes with
      | .error e => .err e
      | .ok _ =>
        match env.diffRes with
        | .error e => .err e
        | .ok _ =>
          match env.printRes with
          | .error e => .err e
          | .ok bytes =>
            match utf8Decode? bytes with
            | none => .err "invalid utf-8 sequence"
            | some cs => .ok (String.mk cs)

/-- Whether a `get_git_diff` outcome is a panic (process abort). -/
def GitOutcome.isPanic {α : Type} : GitOutcome α → Bool
  | .panic _ => true
  | _ => false

/-- `copy_to_clip` of src/main.rs, lines 71-75, over the results of the two
fallible `arboard` calls: `Clipboard::new()?` then `clipboard.set_text(..)?`. -/
def copy_to_clip (newRes setTextRes : Except String Unit) : Except String Unit :=
  match newRes with
  | .error e => .error e
  | .ok _ =>
    match setTextRes with
    | .error e => .error e
    | .ok _ => .ok ()

/-- The constant COMMIT_MESSAGE_GUIDELINE of src/main.rs, transcribed verbatim
(the Rust raw string literal, including its leading newline and trailing indent). -/
def COMMIT_MESSAGE_GUIDELINE : String :=
  "
Please generate a concise yet appropriate commit message based on the provided Git diff, following Conventional Commits.
The key words “MUST”, “MUST NOT”, “REQUIRED”, “SHALL”, “SHALL NOT”, “SHOULD”, “SHOULD NOT”, “RECOMMENDED”, “MAY”, and “OPTIONAL” in this document are to be interpreted as described in RFC 2119.

1. Commits MUST be prefixed with a type, which consists of a noun, feat, fix, etc., followed by the OPTIONAL scope, OPTIONAL !, and REQUIRED terminal colon and space.
2. The type feat MUST be used when a commit adds a new feature to your application or library.
3. The type fix MUST be used when a commit represents a bug fix for your application.
4. A scope MAY be provided after a type. A scope MUST consist of a noun describing a section of the codebase surrounded by parenthesis, e.g., fix(parser):
5. A description MUST immediately follow the colon and space after the type/scope prefix. The description is a short summary of the code changes, e.g., fix: array parsing issue when multiple spaces were contained in string.
6. A longer commit body MAY be provided after the short description, providing additional contextual information about the code changes. The body MUST begin one blank line after the description.
7. A commit body is free-form and MAY consist of any number of newline separated paragraphs.
8. One or more footers MAY be provided one blank line after the body. Each footer MUST consist of a word token, followed by either a :<space> or <space># separator, followed by a string value (this is inspired by the git trailer convention).
9. A footer’s token MUST use - in place of whitespace characters, e.g., Acked-by (this helps differentiate the footer section from a multi-paragraph body). An exception is made for BREAKING CHANGE, which MAY also be used as a token.
10. A footer’s value MAY contain spaces and newlines, and parsing MUST terminate when the next valid footer token/separator pair is observed.
11. Breaking changes MUST be indicated in the type/scope prefix of a commit, or as an entry in the footer.
12. If included as a footer, a breaking change MUST consist of the uppercase text BREAKING CHANGE, followed by a colon, space, and description, e.g., BREAKING CHANGE: environment variables now take precedence over config files.
13. If included in the type/scope prefix, breaking changes MUST be indicated by a ! immediately before the :. If ! is used, BREAKING CHANGE: MAY be omitted from the footer section, and the commit description SHALL be used to describe the breaking change.
14. Types other than feat and fix MAY be used in your commit messages, e.g., docs: update ref docs.
15. The units of information that make up Conventional Commits MUST NOT be treated as case sensitive by implementors, with the exception of BREAKING CHANGE which MUST be uppercase.
16. BREAKING-CHANGE MUST be synonymous with BREAKING CHANGE, when used as a token in a footer.
    "

/-- `create_prompt` of src/main.rs, lines 100-106: the `format!` call
interpolating the guideline and the diff into the fixed template. -/
def create_prompt (diff : String) : String :=
  COMMIT_MESSAGE_GUIDELINE ++ "\n\n---\n\n## Git Diff\n\n```diff\n" ++ diff ++ "\n```"

/-- `struct Part` of src/main.rs. -/
structure Part where
  text : String
deriving DecidableEq, Repr

/-- `struct Content` of src/main.rs. -/
structure Content where
  parts : List Part
deriving DecidableEq, Repr

/-- `struct Candidate` of src/main.rs.  `safety_ratings` is an arbitrary JSON
value in the source; it is never inspected, so it is modelled by its
`Debug` rendering. -/
structure Candidate where
  content : Option Content
  finish_reason : Option String
  safety_ratings : Option String
deriving DecidableEq, Repr

/-- `struct GeminiResponse` of src/main.rs.  `prompt_feedback` is an arbitrary
JSON value in the source, used only through its `Debug` rendering, so it is
modelled by that rendering. -/
structure GeminiResponse where
  candidates : List Candidate
  prompt_feedback : Option String
deriving DecidableEq, Repr

/-- The extraction chain of src/main.rs, lines 155-158:
`body.candidates.get(0).and_then(content).and_then(parts.get(0)).map(trim)`. -/
def commit_message_of (body : GeminiResponse) : Option String :=
  ((body.candidates[0]?.bind (fun c => c.content)).bind
    (fun content => content.parts[0]?)).map (fun part => rustTrim part.text)

/-- The `reason` binding of src/main.rs, lines 164-167: the first candidate's
`finish_reason` when present, else the fixed placeholder. -/
def finish_reason_of (body : GeminiResponse) : String :=
  (body.candidates[0]?.bind (fun c => c.finish_reason)).getD
    "不明 (candidatesが空か構造不正)"

/-- The `feedback_info` binding of src/main.rs, lines 169-171: the rendering
of `prompt_feedback` when present, else the fixed placeholder. -/
def feedback_info_of (body : GeminiResponse) : String :=
  (body.prompt_feedback.map (fun f => "Prompt Feedback: " ++ f)).getD
    "No Prompt Feedback"

/-- The diagnostic error built on src/main.rs, lines 173-179, when extraction
fails. -/
def extraction_error (body : GeminiResponse) : String :=
  "Gemini APIは有効なテキストを返しませんでした。\n原因: finish_reason='" ++
    finish_reason_of body ++ "'\n詳細: " ++ feedback_info_of body

/-- The endpoint URL built on src/main.rs, lines 133-135. -/
def gemini_url (api_key : String) : String :=
  "https://generativelanguage.googleapis.com/v1beta/models/gemini-2.5-flash:generateContent?key="
    ++ api_key

/-- The JSON payload of src/main.rs, lines 137-145: one contents entry holding
one text part equal to the prompt.  Each inner list is the list of part texts
of one contents entry. -/
def gemini_payload (prompt : String) : List (List String) := [[prompt]]

/-- `Response::error_for_status` of reqwest errs exactly on client-error
(400-499) and server-error (500-599) HTTP status codes. -/
def statusIsError (status : Nat) : Bool := decide (400 ≤ status ∧ status ≤ 599)

/-- The HTTP exchange `generate_commit_message` performs, as data: the result
of `send().await`, the status code of the response, and the result that
parsing the body as `GeminiResponse` would produce (`response.json().await`). -/
structure HttpExchange where
  /-- `client.post(url).json(payload).send().await?` -/
  sendRes : Except String Unit
  /-- the HTTP status code of the received response -/
  status : Nat
  /-- `response.json::<GeminiResponse>().await?` -/
  bodyParse : Except String GeminiResponse
deriving Repr

/-- The steps of `generate_commit_message`, recorded in order so that
short-circuiting can be stated: sending the request, checking the status
with `error_for_status`, parsing the body as `GeminiResponse`, extracting the
message. -/
inductive GenStep where
  | send
  | checkStatus
  | parseBody
  | extract
deriving DecidableEq, Repr

/-- `generate_commit_message` of src/main.rs, lines 131-182, over the
modelled HTTP exchange (the URL and payload it sends are `gemini_url` and
`gemini_payload`): propagate a send error; err on a client/server error
status without touching the body (`error_for_status?`, whose error display
is modelled by the fixed text and status); parse the body; return the
trimmed first part of the first candidate's content, or the diagnostic
`extraction_error`.  The second component lists the steps reached. -/
def generate_commit_message (h : HttpExchange) (prompt api_key : String) :
    Except String String × List GenStep :=
  match h.sendRes with
  | .error e => (.error e, [.send])
  | .ok _ =>
    if statusIsError h.status then
      (.error ("HTTP status client/server error (" ++ toString h.status ++ ") for url "
        ++ gemini_url api_key), [.send, .checkStatus])
    else
      match h.bodyParse with
      | .error e => (.error e, [.send, .checkStatus, .parseBody])
      | .ok body =>
        match commit_message_of body with
        | some text => (.ok text, [.send, .checkStatus, .parseBody, .extract])
        | none =>
          (.error (extraction_error body), [.send, .checkStatus, .parseBody, .extract])

/-- The `Display` of `std::env::VarError::NotPresent`, interpolated into the
`make sure setting api key` message. -/
def varNotPresentMsg : String := "environment variable not found"

/-- The credential resolution of src/main.rs, lines 43-57: `args` is the full
`env::args()` vector (program name first); when `args.len() > 1` the first
command-line argument `args[1]` is the key, otherwise the environment
variable `GEMINI_API_KEY` is looked up (`none` when absent). -/
def resolveApiKey (args : List String) (envVars : List (String × String)) :
    Option String :=
  if args.length > 1 then args[1]?
  else (envVars.find? (fun p => p.fst == "GEMINI_API_KEY")).map (fun p => p.snd)

/-- Rust `println!` with `{:?}` on a `String` prints it quoted; escaping of
special characters inside the text is not modelled. -/
def rustDebugStr (s : String) : String := "\"" ++ s ++ "\""

/-- One line of console output: `println!` goes to stdout, `eprintln!` to
stderr. -/
inductive ConsoleLine where
  | stdout (s : String)
  | stderr (s : String)
deriving DecidableEq, Repr

/-- The outcome of a run of `main`: a panic (from `expect` or from
`get_git_diff`'s open failure), `Ok(())` with the printed console lines
(process success), or `Err` propagated from `main`'s `?` (process failure). -/
inductive RunOutcome where
  | panic (msg : String)
  | success (output : List ConsoleLine)
  | failure (msg : String)
deriving DecidableEq, Repr

/-- Whether a run outcome is `main` returning `Ok(())` (process success). -/
def RunOutcome.isSuccess : RunOutcome → Bool
  | .success _ => true
  | _ => false

/-- Whether a run outcome is `main` returning `Err` (process failure). -/
def RunOutcome.isFailure : RunOutcome → Bool
  | .failure _ => true
  | _ => false

/-- The pipeline stages `main` can invoke, recorded in order: reading the
diff (`get_git_diff`), resolving the credential, building the prompt
(`create_prompt`), generating the message (`generate_commit_message`),
writing the clipboard (`copy_to_clip`). -/
inductive MainStep where
  | readDiff
  | resolveKey
  | buildPrompt
  | generate
  | clipboard
deriving DecidableEq, Repr

/-- The full external world of one run of `main`. -/
structure World where
  /-- `dotenv()`: the error payload is the `Debug` rendering `expect` appends. -/
  dotenvRes : Except String Unit
  repo : RepoEnv
  /-- `env::args().collect()`: the program name first, then the arguments. -/
  args : List String
  /-- the process environment after `dotenv()`, as an association list -/
  envVars : List (String × String)
  http : HttpExchange
  /-- `Clipboard::new()` -/
  clipNew : Except String Unit
  /-- `clipboard.set_text(..)` -/
  clipSet : Except String Unit
deriving Repr

/-- `main` of src/main.rs, lines 28-69, over the modelled world, paired with
the list of pipeline stages it invoked.  `dotenv().expect(..)` panics with
the expect message and the error's rendering; a `get_git_diff` error is
printed and `main` returns `Ok(())`; an empty diff prints `Nothing to commit`
and returns `Ok(())`; a missing credential prints the guidance message and
returns `Ok(())`; a `generate_commit_message` error propagates through `?`
as the run's failure; otherwise the message is printed with `{:?}` and the
clipboard outcome is reported without affecting the returned value. -/
def main (w : World) : RunOutcome × List MainStep :=
  match w.dotenvRes with
  | .error e => (.panic (".env file not fount: " ++ e), [])
  | .ok _ =>
    match get_git_diff w.repo with
    | .panic m => (.panic m, [.readDiff])
    | .err e => (.success [.stdout ("error get_git_diff " ++ e)], [.readDiff])
    | .ok diff =>
      if diff = "" then
        (.success [.stdout "Nothing to commit"], [.readDiff])
      else
        match resolveApiKey w.args w.envVars with
        | none =>
          (.success [.stdout ("make sure setting api key " ++ varNotPresentMsg)],
            [.readDiff, .resolveKey])
        | some api_key =>
          let prompto := create_prompt diff
          match (generate_commit_message w.http prompto api_key).fst with
          | .error e =>
            (.failure e, [.readDiff, .resolveKey, .buildPrompt, .generate])
          | .ok message =>
            let clipLines :=
              match copy_to_clip w.clipNew w.clipSet with
              | .ok _ => [ConsoleLine.stdout "success to copy to clip"]
              | .error e => [ConsoleLine.stderr ("fail to copy to clip " ++ e)]
            (.success (ConsoleLine.stdout (rustDebugStr message) :: clipLines),
              [.readDiff, .resolveKey, .buildPrompt, .generate, .clipboard])

/-! Concrete example inputs, used by the witness theorems to evaluate the
model on closed data. -/

/-- A repository environment in which every git call succeeds and the diff
prints the given bytes. -/
def repoOk (bytes : List Nat) : RepoEnv := ⟨.ok (), .ok (), .ok (), .ok (), .ok bytes⟩

/-- A repository environment whose HEAD resolution fails (no commits yet). -/
def repoNoHead : RepoEnv := ⟨.ok (), .error "no HEAD", .ok (), .ok (), .ok []⟩

/-- A repository environment whose open fails. -/
def repoOpenFail : RepoEnv := ⟨.error "boom", .ok (), .ok (), .ok (), .ok []⟩

/-- A repository environment whose diff bytes are not valid UTF-8. -/
def repoBadUtf8 : RepoEnv := ⟨.ok (), .ok (), .ok (), .ok (), .ok [0xFF]⟩

/-- A response with one candidate whose first part is the padded login text. -/
def exBodyLogin : GeminiResponse :=
  ⟨[⟨some ⟨[⟨"  feat: add login  "⟩]⟩, none, none⟩], none⟩

/-- A response with no candidates and no prompt feedback. -/
def exBodyEmpty : GeminiResponse := ⟨[], none⟩

/-- A response with one candidate whose first part is an already-trimmed
message. -/
def exBodyFix : GeminiResponse := ⟨[⟨some ⟨[⟨"fix: thing"⟩]⟩, none, none⟩], none⟩

/-- A successful HTTP exchange delivering the given parsed body. -/
def httpOk (body : GeminiResponse) : HttpExchange := ⟨.ok (), 200, .ok body⟩

/-- An HTTP exchange answered with status 404. -/
def http404 : HttpExchange := ⟨.ok (), 404, .error "body was not parsed"⟩

/-- A world whose `.env` load fails. -/
def wNoDotenv : World :=
  ⟨.error "path not found", repoOk [], [], [], httpOk exBodyEmpty, .ok (), .ok ()⟩

/-- A world with an empty staged diff. -/
def wEmptyDiff : World :=
  ⟨.ok (), repoOk [], [], [], httpOk exBodyEmpty, .ok (), .ok ()⟩

/-- A world in which `get_git_diff` returns a reportable error. -/
def wDiffErr : World :=
  ⟨.ok (), repoNoHead, [], [], httpOk exBodyEmpty, .ok (), .ok ()⟩

/-- A world with a one-byte diff, a command-line credential, a successful
generation and a failing clipboard. -/
def wClipFail : World :=
  ⟨.ok (), repoOk [100], ["prog", "key"], [], httpOk exBodyFix, .ok (),
    .error "clipboard unavailable"⟩

/-- A world with a one-byte diff, a command-line credential and an
environment credential that differ. -/
def wBothKeys : World :=
  ⟨.ok (), repoOk [100], ["prog", "argkey"], [("GEMINI_API_KEY", "envkey")],
    httpOk exBodyFix, .ok (), .ok ()⟩

/-! Shared helper lemmas. -/

/-- With a program name and at least one argument, credential resolution
yields that first argument, whatever the environment holds. -/
theorem resolveApiKey_cons (prog a : String) (rest : List String)
    (envVars : List (String × String)) :
    resolveApiKey (prog :: a :: rest) envVars = some a := by
  simp [resolveApiKey]

/-- The separator-plus-fence prefix of the prompt template splits into the
section break and the opening fence. -/
theorem sep_data_split :
    ("\n\n---\n\n## Git Diff\n\n```diff\n" : String).data =
      ("\n\n---\n\n## Git Diff\n\n" : String).data ++ ("```diff\n" : String).data := by
  decide

end GeminiCommit

namespace GeminiCommit

/-- C10: when the `.env` load fails, `main` panics at once with the `expect`
message, before any pipeline stage runs (the step list is empty, so the diff
is not read, the empty-diff check is not reached and the credential is not
resolved). -/
theorem missing_dotenv_panics (w : World) (e : String)
    (h : w.dotenvRes = .error e) :
    main w = (.panic (".env file not fount: " ++ e), []) := by
  simp [main, h]

/-- C10 witness: the theorem applied to a concrete world without a `.env`. -/
theorem missing_dotenv_panics_witness :
    main wNoDotenv = (.panic (".env file not fount: " ++ "path not found"), []) :=
  missing_dotenv_panics wNoDotenv "path not found" rfl

/-- C3: when the diff is the empty string, `main` prints `Nothing to commit`
and returns success, and neither the prompt builder, nor the generator, nor
the clipboard writer is invoked. -/
theorem empty_diff_short_circuits (w : World)
    (h0 : w.dotenvRes = .ok ()) (h1 : get_git_diff w.repo = .ok "") :
    (main w).fst = .success [.stdout "Nothing to commit"] ∧
    MainStep.buildPrompt ∉ (main w).snd ∧
    MainStep.generate ∉ (main w).snd ∧
    MainStep.clipboard ∉ (main w).snd := by
  simp [main, h0, h1]

/-- C3 witness: the theorem applied to a concrete world with no staged
changes. -/
theorem empty_diff_short_circuits_witness :
    (main wEmptyDiff).fst = .success [.stdout "Nothing to commit"] ∧
    MainStep.buildPrompt ∉ (main wEmptyDiff).snd ∧
    MainStep.generate ∉ (main wEmptyDiff).snd ∧
    MainStep.clipboard ∉ (main wEmptyDiff).snd :=
  empty_diff_short_circuits wEmptyDiff rfl rfl

/-- C2 counterexample: in a concrete run whose diff retrieval fails with a
reportable error, `main` returns `Ok(())` — the claimed non-success outcome
does not occur. -/
theorem diff_error_success_cex :
    get_git_diff wDiffErr.repo = .err "no HEAD" ∧
    (main wDiffErr).fst.isSuccess = true ∧
    (main wDiffErr).fst.isFailure = false := by
  refine ⟨rfl, rfl, rfl⟩

/-- C2 (amended): when diff retrieval returns a reportable non-panic error,
`main` prints the error, ends the run before building a prompt or invoking
the generator, and returns success (`Ok(())`), not a failure outcome. -/
theorem diff_error_reports_and_exits_ok (w : World) (e : String)
    (h0 : w.dotenvRes = .ok ()) (h1 : get_git_diff w.repo = .err e) :
    (main w).fst = .success [.stdout ("error get_git_diff " ++ e)] ∧
    MainStep.buildPrompt ∉ (main w).snd ∧
    MainStep.generate ∉ (main w).snd ∧
    (main w).fst.isFailure = false := by
  simp [main, h0, h1, RunOutcome.isFailure]

/-- C2 witness: the amended theorem applied to the concrete failing world. -/
theorem diff_error_reports_and_exits_ok_witness :
    (main wDiffErr).fst = .success [.stdout ("error get_git_diff " ++ "no HEAD")] ∧
    MainStep.buildPrompt ∉ (main wDiffErr).snd ∧
    MainStep.generate ∉ (main wDiffErr).snd ∧
    (main wDiffErr).fst.isFailure = false :=
  diff_error_reports_and_exits_ok wDiffErr "no HEAD" rfl rfl

/-- C7: after a successful send, a client- or server-error HTTP status makes
`generate_commit_message` return an error without reaching the body-parsing
step; conversely the body-parsing step is reached only when the status check
passed. -/
theorem http_error_skips_body_parse (h : HttpExchange) (prompt api_key : String)
    (hs : h.sendRes = .ok ()) :
    (statusIsError h.status = true →
      (generate_commit_message h prompt api_key).fst =
        .error ("HTTP status client/server error (" ++ toString h.status ++
          ") for url " ++ gemini_url api_key) ∧
      GenStep.parseBody ∉ (generate_commit_message h prompt api_key).snd) ∧
    (GenStep.parseBody ∈ (generate_commit_message h prompt api_key).snd →
      statusIsError h.status = false) := by
  constructor
  · intro he
    simp [generate_commit_message, hs, he]
  · intro hmem
    by_contra hne
    simp [generate_commit_message, hs,
      Bool.of_not_eq_false hne] at hmem

/-- C7 witness: the theorem applied to a concrete 404 exchange. -/
theorem http_error_skips_body_parse_witness :
    (statusIsError http404.status = true →
      (generate_commit_message http404 "p" "k").fst =
        .error ("HTTP status client/server error (" ++ toString http404.status ++
          ") for url " ++ gemini_url "k") ∧
      GenStep.parseBody ∉ (generate_commit_message http404 "p" "k").snd) ∧
    (GenStep.parseBody ∈ (generate_commit_message http404 "p" "k").snd →
      statusIsError http404.status = false) :=
  http_error_skips_body_parse http404 "p" "k" rfl

/-- C9: `get_git_diff` panics exactly on an open failure: an open failure
aborts with the `faild to open` message; once the repository is open, a HEAD
resolution failure is returned as an error, diff bytes that are not valid
UTF-8 are returned as an error, and no outcome is a panic. -/
theorem get_git_diff_error_taxonomy (env : RepoEnv) (e : String) (bytes : List Nat) :
    (env.openRes = .error e →
      get_git_diff env = .panic ("faild to open: " ++ e)) ∧
    (env.openRes = .ok () → env.headRes = .error e → get_git_diff env = .err e) ∧
    (env.openRes = .ok () → env.headRes = .ok () → env.indexRes = .ok () →
      env.diffRes = .ok () → env.printRes = .ok bytes →
      utf8Decode? bytes = none →
      get_git_diff env = .err "invalid utf-8 sequence") ∧
    (env.openRes = .ok () → (get_git_diff env).isPanic = false) := by
  refine ⟨fun ho => by simp [get_git_diff, ho],
    fun ho hh => by simp [get_git_diff, ho, hh],
    fun ho hh hi hd hp hu => by simp [get_git_diff, ho, hh, hi, hd, hp, hu],
    fun ho => ?_⟩
  simp only [get_git_diff, ho]
  cases env.headRes with
  | error e1 => rfl
  | ok u =>
    cases u
    cases env.indexRes with
    | error e2 => rfl
    | ok u =>
      cases u
      cases env.diffRes with
      | error e3 => rfl
      | ok u =>
        cases u
        cases env.printRes with
        | error e4 => rfl
        | ok bs =>
          cases hu : utf8Decode? bs with
          | none => simp [hu, GitOutcome.isPanic]
          | some cs => simp [hu, GitOutcome.isPanic]

/-- C9 witness: the taxonomy applied to three concrete repository
environments — a failing open, a missing HEAD, and invalid UTF-8 diff
bytes. -/
theorem get_git_diff_error_taxonomy_witness :
    get_git_diff repoOpenFail = .panic ("faild to open: " ++ "boom") ∧
    get_git_diff repoNoHead = .err "no HEAD" ∧
    get_git_diff repoBadUtf8 = .err "invalid utf-8 sequence" ∧
    (get_git_diff repoNoHead).isPanic = false :=
  ⟨(get_git_diff_error_taxonomy repoOpenFail "boom" []).1 rfl,
   (get_git_diff_error_taxonomy repoNoHead "no HEAD" []).2.1 rfl rfl,
   (get_git_diff_error_taxonomy repoBadUtf8 "x" [0xFF]).2.2.1 rfl rfl rfl rfl rfl rfl,
   (get_git_diff_error_taxonomy repoNoHead "x" []).2.2.2 rfl⟩

end GeminiCommit

namespace GeminiCommit

/-- C1: for a response whose first candidate has content with a first part,
`generate_commit_message` returns `Ok` of that part's text trimmed of
leading and trailing whitespace; on the padded login text the result is the
trimmed message with its interior whitespace intact. -/
theorem extract_ok_trims_first_part (h : HttpExchange) (prompt api_key : String)
    (body : GeminiResponse) (c : Candidate) (ct : Content) (p : Part)
    (hs : h.sendRes = .ok ()) (he : statusIsError h.status = false)
    (hb : h.bodyParse = .ok body)
    (hc : body.candidates[0]? = some c) (hct : c.content = some ct)
    (hp : ct.parts[0]? = some p) :
    (generate_commit_message h prompt api_key).fst = .ok (rustTrim p.text) ∧
    rustTrim "  feat: add login  " = "feat: add login" := by
  have hm : commit_message_of body = some (rustTrim p.text) := by
    simp [commit_message_of, hc, hct, hp]
  exact ⟨by simp [generate_commit_message, hs, he, hb, hm], by decide⟩

/-- C1 witness: the theorem applied to the concrete padded login response. -/
theorem extract_ok_trims_first_part_witness :
    (generate_commit_message (httpOk exBodyLogin) "p" "k").fst =
      .ok (rustTrim "  feat: add login  ") ∧
    rustTrim "  feat: add login  " = "feat: add login" :=
  extract_ok_trims_first_part (httpOk exBodyLogin) "p" "k" exBodyLogin
    ⟨some ⟨[⟨"  feat: add login  "⟩]⟩, none, none⟩ ⟨[⟨"  feat: add login  "⟩]⟩
    ⟨"  feat: add login  "⟩ rfl rfl rfl rfl rfl rfl

/-- C4: when extraction fails on a parsed response, `generate_commit_message`
returns the diagnostic error; that message contains the first candidate's
finish-reason when present and the fixed placeholder when absent, and the
rendering of the prompt feedback when present and the fixed placeholder when
absent. -/
theorem extraction_failure_diagnostic (h : HttpExchange) (prompt api_key : String)
    (body : GeminiResponse)
    (hs : h.sendRes = .ok ()) (he : statusIsError h.status = false)
    (hb : h.bodyParse = .ok body) (hx : commit_message_of body = none) :
    (generate_commit_message h prompt api_key).fst = .error (extraction_error body) ∧
    (finish_reason_of body).data <:+: (extraction_error body).data ∧
    (feedback_info_of body).data <:+: (extraction_error body).data ∧
    (body.candidates[0]? = none →
      finish_reason_of body = "不明 (candidatesが空か構造不正)") ∧
    (∀ c r, body.candidates[0]? = some c → c.finish_reason = some r →
      finish_reason_of body = r) ∧
    (body.prompt_feedback = none → feedback_info_of body = "No Prompt Feedback") ∧
    (∀ f, body.prompt_feedback = some f →
      feedback_info_of body = "Prompt Feedback: " ++ f) := by
  refine ⟨by simp [generate_commit_message, hs, he, hb, hx],
    ⟨("Gemini APIは有効なテキストを返しませんでした。\n原因: finish_reason='" : String).data,
      ("'\n詳細: " : String).data ++ (feedback_info_of body).data, ?_⟩,
    ⟨("Gemini APIは有効なテキストを返しませんでした。\n原因: finish_reason='" : String).data ++
      ((finish_reason_of body).data ++ ("'\n詳細: " : String).data), [], ?_⟩,
    fun hn => by simp [finish_reason_of, hn],
    fun c r hc hr => by simp [finish_reason_of, hc, hr],
    fun hn => by simp [feedback_info_of, hn],
    fun f hf => by simp [feedback_info_of, hf]⟩
  · simp [extraction_error, String.data_append, List.append_assoc]
  · simp [extraction_error, String.data_append, List.append_assoc]

/-- C4 witness: the theorem applied to the concrete empty-candidates
response. -/
theorem extraction_failure_diagnostic_witness :
    (generate_commit_message (httpOk exBodyEmpty) "p" "k").fst =
      .error (extraction_error exBodyEmpty) ∧
    (finish_reason_of exBodyEmpty).data <:+: (extraction_error exBodyEmpty).data ∧
    (feedback_info_of exBodyEmpty).data <:+: (extraction_error exBodyEmpty).data ∧
    (exBodyEmpty.candidates[0]? = none →
      finish_reason_of exBodyEmpty = "不明 (candidatesが空か構造不正)") ∧
    (∀ c r, exBodyEmpty.candidates[0]? = some c → c.finish_reason = some r →
      finish_reason_of exBodyEmpty = r) ∧
    (exBodyEmpty.prompt_feedback = none →
      feedback_info_of exBodyEmpty = "No Prompt Feedback") ∧
    (∀ f, exBodyEmpty.prompt_feedback = some f →
      feedback_info_of exBodyEmpty = "Prompt Feedback: " ++ f) :=
  extraction_failure_diagnostic (httpOk exBodyEmpty) "p" "k" exBodyEmpty
    rfl rfl rfl rfl

/-- C8: every prompt contains the diff verbatim inside the `diff`-tagged
fence, is at least as long as the diff plus the guideline constant, and the
builder is deterministic. -/
theorem create_prompt_contains_diff (d d2 : String) :
    ("```diff\n" ++ d ++ "\n```").data <:+: (create_prompt d).data ∧
    d.length + COMMIT_MESSAGE_GUIDELINE.length ≤ (create_prompt d).length ∧
    (d = d2 → create_prompt d = create_prompt d2) := by
  refine ⟨⟨(COMMIT_MESSAGE_GUIDELINE ++ "\n\n---\n\n## Git Diff\n\n").data, [], ?_⟩,
    ?_, fun h => by rw [h]⟩
  · simp [create_prompt, String.data_append, sep_data_split, List.append_assoc]
  · simp only [create_prompt, String.length_append]
    omega

/-- C8 witness: the theorem applied to a concrete one-line diff. -/
theorem create_prompt_contains_diff_witness :
    ("```diff\n" ++ "+x" ++ "\n```").data <:+: (create_prompt "+x").data ∧
    ("+x" : String).length + COMMIT_MESSAGE_GUIDELINE.length ≤
      (create_prompt "+x").length ∧
    (("+x" : String) = "+x" → create_prompt "+x" = create_prompt "+x") :=
  create_prompt_contains_diff "+x" "+x"

end GeminiCommit

namespace GeminiCommit

/-- C5: with a first command-line argument present, credential resolution
returns exactly that argument; the whole run is unchanged by any change to
the environment variables, so the environment value is never consulted; and
without a first argument the resolution is exactly the environment lookup. -/
theorem arg_credential_precedence (dv : Except String Unit) (repo : RepoEnv)
    (prog a : String) (rest : List String)
    (env1 env2 : List (String × String)) (http : HttpExchange)
    (cn cs : Except String Unit) :
    resolveApiKey (prog :: a :: rest) env1 = some a ∧
    main ⟨dv, repo, prog :: a :: rest, env1, http, cn, cs⟩ =
      main ⟨dv, repo, prog :: a :: rest, env2, http, cn, cs⟩ ∧
    resolveApiKey [prog] env1 =
      (env1.find? (fun p => p.fst == "GEMINI_API_KEY")).map (fun p => p.snd) := by
  refine ⟨resolveApiKey_cons prog a rest env1, ?_, by simp [resolveApiKey]⟩
  simp only [main]
  cases dv with
  | error e => rfl
  | ok u =>
    cases u
    cases get_git_diff repo with
    | panic m => rfl
    | err e => rfl
    | ok diff =>
      by_cases hdiff : diff = ""
      · simp [hdiff]
      · simp [hdiff, resolveApiKey_cons]

/-- C5 witness: the theorem applied to a run where a first argument and a
differing environment value are both present. -/
theorem arg_credential_precedence_witness :
    resolveApiKey ("prog" :: "argkey" :: []) [("GEMINI_API_KEY", "envkey")] =
      some "argkey" ∧
    main ⟨.ok (), repoOk [100], "prog" :: "argkey" :: [],
        [("GEMINI_API_KEY", "envkey")], httpOk exBodyFix, .ok (), .ok ()⟩ =
      main ⟨.ok (), repoOk [100], "prog" :: "argkey" :: [], [],
        httpOk exBodyFix, .ok (), .ok ()⟩ ∧
    resolveApiKey ["prog"] [("GEMINI_API_KEY", "envkey")] =
      ([("GEMINI_API_KEY", "envkey")].find?
        (fun p => p.fst == "GEMINI_API_KEY")).map (fun p => p.snd) :=
  arg_credential_precedence (.ok ()) (repoOk [100]) "prog" "argkey" []
    [("GEMINI_API_KEY", "envkey")] [] (httpOk exBodyFix) (.ok ()) (.ok ())

/-- C6: in a run that reaches the clipboard step, `main` returns success
whatever the clipboard outcome; a clipboard failure only appends the warning
line to stderr, and a clipboard success appends the success line. -/
theorem clipboard_failure_nonfatal (w : World) (d api_key message e : String)
    (h0 : w.dotenvRes = .ok ()) (h1 : get_git_diff w.repo = .ok d) (h2 : d ≠ "")
    (h3 : resolveApiKey w.args w.envVars = some api_key)
    (h4 : (generate_commit_message w.http (create_prompt d) api_key).fst =
      .ok message) :
    (main w).fst.isSuccess = true ∧
    (copy_to_clip w.clipNew w.clipSet = .error e →
      (main w).fst = .success [.stdout (rustDebugStr message),
        .stderr ("fail to copy to clip " ++ e)]) ∧
    (copy_to_clip w.clipNew w.clipSet = .ok () →
      (main w).fst = .success [.stdout (rustDebugStr message),
        .stdout "success to copy to clip"]) := by
  refine ⟨?_, fun hce => ?_, fun hco => ?_⟩
  · cases hc : copy_to_clip w.clipNew w.clipSet <;>
      simp [main, h0, h1, h2, h3, h4, hc, RunOutcome.isSuccess]
  · simp [main, h0, h1, h2, h3, h4, hce]
  · simp [main, h0, h1, h2, h3, h4, hco]

/-- C6 witness: the theorem applied to a concrete run whose clipboard is
unavailable. -/
theorem clipboard_failure_nonfatal_witness :
    (main wClipFail).fst.isSuccess = true ∧
    (copy_to_clip wClipFail.clipNew wClipFail.clipSet =
        .error "clipboard unavailable" →
      (main wClipFail).fst = .success [.stdout (rustDebugStr "fix: thing"),
        .stderr ("fail to copy to clip " ++ "clipboard unavailable")]) ∧
    (copy_to_clip wClipFail.clipNew wClipFail.clipSet = .ok () →
      (main wClipFail).fst = .success [.stdout (rustDebugStr "fix: thing"),
        .stdout "success to copy to clip"]) :=
  clipboard_failure_nonfatal wClipFail "d" "key" "fix: thing"
    "clipboard unavailable" rfl rfl (by decide) rfl rfl

end GeminiCommit
